import Mathlib

/-!
Shallow embedding of the PassioGo client library (src/passiogo/client.py and
src/passiogo/models.py) and verification of its specification claims.

JSON values decoded from API responses are modelled by the inductive `Json`.
Numbers are modelled as integers (no claim depends on float behaviour).
Python-level failures (TypeError, KeyError, ...) are modelled by `PyErr` and
fallible operations return `Except PyErr`.
-/

/-- A decoded JSON value as manipulated by the Python client. -/
inductive Json where
  | null : Json
  | bool : Bool → Json
  | num : Int → Json
  | str : String → Json
  | arr : List Json → Json
  | obj : List (String × Json) → Json

/-- Kinds of exception the Python code can raise.  `decodeError` models the
exception raised in `sendApiRequest` when the body is not valid JSON, and
`apiError` the exception raised there when the response carries a non-empty
`error` field; the remaining constructors model the builtin Python
exceptions. -/
inductive PyErr where
  | typeError
  | keyError
  | indexError
  | valueError
  | attributeError
  | assertionError
  | decodeError
  | apiError
deriving DecidableEq, Repr

/-- First-match lookup in an association list, as a Python dict read. -/
def lookupJ : List (String × Json) → String → Option Json
  | [], _ => none
  | (k, v) :: rest, key => if k == key then some v else lookupJ rest key

/-- Equality of a value against the entry at key `k` of a dict, with the
comparison against the stored value supplied as a function. -/
def pyEqEntry (f : Json → Bool) : List (String × Json) → String → Bool
  | [], _ => false
  | (k2, w) :: rest, k => if k2 == k then f w else pyEqEntry f rest k

mutual

/-- Python `==` on decoded JSON values: numbers and booleans compare by
numeric value (`True == 1`), strings and `None` compare structurally, lists
compare pointwise and dicts compare by key (JSON objects have unique
keys). -/
def pyEq : Json → Json → Bool
  | .null, b =>
    match b with
    | .null => true
    | _ => false
  | .bool x, b =>
    match b with
    | .bool y => x == y
    | .num y => (if x then (1 : Int) else 0) == y
    | _ => false
  | .num x, b =>
    match b with
    | .bool y => x == (if y then (1 : Int) else 0)
    | .num y => x == y
    | _ => false
  | .str x, b =>
    match b with
    | .str y => x == y
    | _ => false
  | .arr x, b =>
    match b with
    | .arr y => pyEqList x y
    | _ => false
  | .obj x, b =>
    match b with
    | .obj y => x.length == y.length && pyEqObj x y
    | _ => false

/-- Pointwise Python `==` on lists. -/
def pyEqList : List Json → List Json → Bool
  | [], b =>
    match b with
    | [] => true
    | _ => false
  | a :: as, b =>
    match b with
    | b1 :: bs => pyEq a b1 && pyEqList as bs
    | _ => false

/-- Every entry of the first dict has a Python-equal value in the second. -/
def pyEqObj : List (String × Json) → List (String × Json) → Bool
  | [], _ => true
  | (k, v) :: rest, b => pyEqEntry (fun w => pyEq v w) b k && pyEqObj rest b

end

/-- Python `d[k]` / `s[k]` with a string key: dict lookup, `KeyError` when
missing, `TypeError` on every non-dict value. -/
def pyGetItem (v : Json) (k : String) : Except PyErr Json :=
  match v with
  | .obj kvs =>
    match lookupJ kvs k with
    | some x => .ok x
    | none => .error .keyError
  | _ => .error .typeError

/-- Read a key from dict entries, `KeyError` when missing. -/
def jsonGetKv (kvs : List (String × Json)) (k : String) : Except PyErr Json :=
  match lookupJ kvs k with
  | some x => .ok x
  | none => .error .keyError

/-- Python `v[i]` with an integer index (only used on list values in the
client; `IndexError` past the end, `TypeError` on non-sequences). -/
def pyIndex (v : Json) (i : Nat) : Except PyErr Json :=
  match v with
  | .arr xs =>
    match xs.get? i with
    | some x => .ok x
    | none => .error .indexError
  | _ => .error .typeError

/-- Python `v[n:]`. -/
def pySliceFrom (v : Json) (n : Nat) : Except PyErr Json :=
  match v with
  | .arr xs => .ok (.arr (xs.drop n))
  | .str s => .ok (.str (s.drop n))
  | _ => .error .typeError

/-- Substring test used by Python `key in someString`. -/
def pyStrContains (needle s : String) : Bool :=
  needle == "" || (s.splitOn needle).length ≥ 2

/-- Python `k in v` for a string `k`: key membership on dicts, element
membership on lists, substring test on strings, `TypeError` otherwise. -/
def pyContains (k : String) (v : Json) : Except PyErr Bool :=
  match v with
  | .obj kvs => .ok (lookupJ kvs k).isSome
  | .arr xs => .ok (xs.any (fun e => pyEq (.str k) e))
  | .str s => .ok (pyStrContains k s)
  | _ => .error .typeError

/-- Python `for x in v`: list elements, dict keys, characters of a string,
`TypeError` otherwise. -/
def pyIterate (v : Json) : Except PyErr (List Json) :=
  match v with
  | .arr xs => .ok xs
  | .obj kvs => .ok (kvs.map (fun p => .str p.1))
  | .str s => .ok (s.data.map (fun c => .str (String.mk [c])))
  | _ => .error .typeError

/-- Python `v.items()`: only dicts have it. -/
def pyItems (v : Json) : Except PyErr (List (String × Json)) :=
  match v with
  | .obj kvs => .ok kvs
  | _ => .error .attributeError

/-- The whitespace characters stripped by Python `int(s)` (space, tab,
newline, carriage return, vertical tab, form feed). -/
def pyIsSpace (c : Char) : Bool :=
  c.toNat == 32 || c.toNat == 9 || c.toNat == 10 || c.toNat == 13 ||
    c.toNat == 11 || c.toNat == 12

/-- Decimal digit test (code points 48-57). -/
def pyIsDigit (c : Char) : Bool :=
  48 ≤ c.toNat && c.toNat ≤ 57

/-- Accumulate a decimal numeral; any non-digit character fails. -/
def pyDigitsGo : List Char → Nat → Option Nat
  | [], acc => some acc
  | c :: rest, acc =>
    if pyIsDigit c then pyDigitsGo rest (10 * acc + (c.toNat - 48)) else none

/-- A non-empty all-digit numeral's value. -/
def pyDigits (cs : List Char) : Option Nat :=
  match cs with
  | [] => none
  | _ => pyDigitsGo cs 0

/-- Python `int(s)` on a string: surrounding whitespace is stripped, an
optional sign (code points 45 and 43) precedes a non-empty run of decimal
digits; anything else is a `ValueError` (`none` here). -/
def pyStrToInt (s : String) : Option Int :=
  let cs := s.data.dropWhile pyIsSpace
  let cs := (cs.reverse.dropWhile pyIsSpace).reverse
  match cs with
  | [] => none
  | c :: rest =>
    if c.toNat == 45 then (pyDigits rest).map (fun n => -(n : Int))
    else if c.toNat == 43 then (pyDigits rest).map (fun n => (n : Int))
    else (pyDigits cs).map (fun n => (n : Int))

/-- Python `int(v)` on a decoded JSON value: ints pass through, booleans
become 0/1, numeric strings are parsed (`ValueError` on failure), and
`None`/lists/dicts raise `TypeError`. -/
def pyInt (v : Json) : Except PyErr Int :=
  match v with
  | .num n => .ok n
  | .bool b => .ok (if b then 1 else 0)
  | .str s =>
    match pyStrToInt s with
    | some n => .ok n
    | none => .error .valueError
  | _ => .error .typeError

/-- Python `bool(int(v))` as used by `getSystems` on flag fields. -/
def pyBoolInt (v : Json) : Except PyErr Bool := do
  let n ← pyInt v
  pure (n != 0)

/-- Embedding of `toIntInclNone` (client.py): `None` is preserved, any other
value goes through `int(...)`. -/
def toIntInclNone (v : Json) : Except PyErr (Option Int) :=
  if pyEq v .null then .ok none
  else do
    let n ← pyInt v
    pure (some n)

/-- The `str`-or-`None` assertions of `TransportationSystem.checkTypes`
(models.py): a string passes, `None` passes, anything else fails the
assertion. -/
def asStrOrNone (v : Json) : Except PyErr (Option String) :=
  match v with
  | .null => .ok none
  | .str s => .ok (some s)
  | _ => .error .assertionError

/-- The `if key not in d: d[key] = None` defaulting loop shared by
`getSystems`, `getRoutes`, `getStops` and `getVehicles`: every listed key
missing from the dict is appended with value `None`. -/
def addMissingKeys (kvs : List (String × Json)) : List String → List (String × Json)
  | [] => kvs
  | k :: ks =>
    addMissingKeys (if (lookupJ kvs k).isSome then kvs else kvs ++ [(k, .null)]) ks

/-- Sequential effectful map mirroring the `for ...: out.append(...)` loops of
the client: the first raised exception aborts the whole listing call. -/
def eachM (f : α → Except PyErr β) : List α → Except PyErr (List β)
  | [] => .ok []
  | x :: xs => do
    let y ← f x
    let ys ← eachM f xs
    pure (y :: ys)

/-! ## Entity model (models.py) -/

/-- Embedding of `TransportationSystem` (models.py): the constructor's
`checkTypes` assertions force the types recorded here. -/
structure TransportationSystem where
  id : Int
  name : Option String
  username : Option String
  goAgencyName : Option String
  email : Option String
  goTestMode : Option Bool
  name2 : Option Bool
  homepage : Option String
  logo : Option Bool
  goRoutePlannerEnabled : Option Bool
  goColor : Option String
  goSupportEmail : Option String
  goSharedCode : Option Int
  goAuthenticationType : Option Bool
deriving DecidableEq, Repr

/-- Embedding of `Route` (models.py).  `Route.__init__` stores every accepted
argument except `timezone`, which it accepts and silently discards, so the
structure has no timezone field.  Raw JSON values are passed through
unconverted, hence the `Json`-typed fields. -/
structure Route where
  id : Json
  groupId : Json
  groupColor : Json
  name : Json
  shortName : Json
  nameOrig : Json
  fullname : Json
  myid : Json
  mapApp : Json
  archive : Json
  goPrefixRouteName : Json
  goShowSchedule : Json
  outdated : Json
  distance : Json
  latitude : Json
  longitude : Json
  serviceTime : Json
  serviceTimeShort : Json
  systemId : Option Int
  system : Option TransportationSystem

/-- Embedding of `Stop` (models.py).  `routesAndPositions` maps a route id
(a JSON-object key, hence a string) to the list of zero-based positions of
this stop on that route. -/
structure Stop where
  id : Json
  routesAndPositions : List (String × List Nat)
  systemId : Option Int
  name : Json
  latitude : Json
  longitude : Json
  radius : Json
  system : Option TransportationSystem

/-- Embedding of `SystemAlert` (models.py): a plain passthrough record. -/
structure SystemAlert where
  id : Json
  systemId : Json
  system : Option TransportationSystem
  routeId : Json
  name : Json
  html : Json
  archive : Json
  important : Json
  dateTimeCreated : Json
  dateTimeFrom : Json
  dateTimeTo : Json
  asPush : Json
  gtfs : Json
  gtfsAlertCauseId : Json
  gtfsAlertEffectId : Json
  gtfsAlertUrl : Json
  gtfsAlertHeaderText : Json
  gtfsAlertDescriptionText : Json
  routeGroupId : Json
  createdUtc : Json
  authorId : Json
  author : Json
  updated : Json
  updateAuthorId : Json
  updateAuthor : Json
  createdF : Json
  fromF : Json
  fromOk : Json
  toOk : Json

/-- Embedding of `Vehicle` (models.py): a plain passthrough record. -/
structure Vehicle where
  id : Json
  name : Json
  type : Json
  system : Option TransportationSystem
  calculatedCourse : Json
  routeId : Json
  routeName : Json
  color : Json
  created : Json
  latitude : Json
  longitude : Json
  speed : Json
  paxLoad : Json
  outOfService : Json
  more : Json
  tripId : Json

/-! ## Transport client (client.py, `sendApiRequest`)

The HTTP POST itself is outside the embedding; the function below receives
the outcome of `response.json()` — `none` when the body could not be parsed
as JSON (the `except` branch), `some r` for the decoded value — and performs
the rest of `sendApiRequest`. -/

/-- Evaluation of `"error" in response and response["error"] != ""`
(client.py lines 66-69) with Python semantics: the membership test raises
`TypeError` on `None`/booleans/numbers, and the subsequent string-keyed
indexing raises `TypeError` on lists and strings. -/
def responseErrorCheck (r : Json) : Except PyErr Bool := do
  let present ← pyContains "error" r
  if present then do
    let e ← pyGetItem r "error"
    pure (!(pyEq e (.str "")))
  else
    pure false

/-- Embedding of `sendApiRequest` after the HTTP call: raise on a
JSON-decode failure, raise when the decoded response carries a non-empty
`error` field, otherwise return the decoded response unchanged. -/
def sendApiRequest (decoded : Option Json) : Except PyErr Json :=
  match decoded with
  | none => .error .decodeError
  | some r => do
    let b ← responseErrorCheck r
    if b then .error .apiError else pure r

/-! ## System listing (client.py, `getSystems`) -/

/-- The `for parameter in system.keys(): if system[parameter] == '':
system[parameter] = None` loop of `getSystems`: empty-string values become
`None`; a non-dict record raises `AttributeError` at the `.keys()` call. -/
def normalizeEmptyStrings (v : Json) : Except PyErr (List (String × Json)) :=
  match v with
  | .obj kvs => .ok (kvs.map (fun p => (p.1, if pyEq p.2 (.str "") then .null else p.2)))
  | _ => .error .attributeError

/-- The key list defaulted by `getSystems` (client.py line 124), including
the duplicated `"email"` entry of the source. -/
def systemDefaultedKeys : List String :=
  ["goAgencyName", "email", "email", "goTestMode", "name2", "homepage", "logo",
   "goRoutePlannerEnabled", "goColor", "goSupportEmail", "goSharedCode",
   "goAuthenticationType"]

/-- Per-record body of the `getSystems` loop: empty strings to `None`,
missing keys among `systemDefaultedKeys` defaulted to `None`, then the
`TransportationSystem(...)` construction with its coercions
(`int(system["id"])`, `bool(int(...))` on the five flag fields,
`toIntInclNone` on `goSharedCode`) and the `checkTypes` assertions.
Reads of keys guaranteed present by the defaulting step are pure lookups;
the fallible reads and coercions appear in the source's evaluation order. -/
def parseSystemRecord (v : Json) : Except PyErr TransportationSystem := do
  let kvs0 ← normalizeEmptyStrings v
  let kvs := addMissingKeys kvs0 systemDefaultedKeys
  let idJ ← jsonGetKv kvs "id"
  let id ← pyInt idJ
  let nameJ ← jsonGetKv kvs "fullname"
  let usernameJ ← jsonGetKv kvs "username"
  let goTestMode ← pyBoolInt ((lookupJ kvs "goTestMode").getD .null)
  let name2 ← pyBoolInt ((lookupJ kvs "name2").getD .null)
  let logo ← pyBoolInt ((lookupJ kvs "logo").getD .null)
  let goRoutePlannerEnabled ← pyBoolInt ((lookupJ kvs "goRoutePlannerEnabled").getD .null)
  let goSharedCode ← toIntInclNone ((lookupJ kvs "goSharedCode").getD .null)
  let goAuthenticationType ← pyBoolInt ((lookupJ kvs "goAuthenticationType").getD .null)
  let name ← asStrOrNone nameJ
  let username ← asStrOrNone usernameJ
  let goAgencyName ← asStrOrNone ((lookupJ kvs "goAgencyName").getD .null)
  let email ← asStrOrNone ((lookupJ kvs "email").getD .null)
  let homepage ← asStrOrNone ((lookupJ kvs "homepage").getD .null)
  let goColor ← asStrOrNone ((lookupJ kvs "goColor").getD .null)
  let goSupportEmail ← asStrOrNone ((lookupJ kvs "goSupportEmail").getD .null)
  pure {
    id := id, name := name, username := username, goAgencyName := goAgencyName,
    email := email, goTestMode := some goTestMode, name2 := some name2,
    homepage := homepage, logo := some logo,
    goRoutePlannerEnabled := some goRoutePlannerEnabled, goColor := goColor,
    goSupportEmail := goSupportEmail, goSharedCode := goSharedCode,
    goAuthenticationType := some goAuthenticationType }

/-- Embedding of `getSystems` from the decoded response on: an absent
response yields the empty list, otherwise each record of `systems["all"]` is
normalized into a `TransportationSystem`. -/
def getSystems (decoded : Option Json) : Except PyErr (List TransportationSystem) :=
  match decoded with
  | none => .ok []
  | some r => do
    let all ← pyGetItem r "all"
    let records ← pyIterate all
    eachM parseSystemRecord records

/-! ## Route listing (client.py, `getRoutes`) -/

/-- The key list defaulted by `getRoutes` (client.py line 260). -/
def possibleRouteKeys : List String :=
  ["id", "groupId", "groupColor", "name", "shortName", "nameOrig", "fullname",
   "myid", "mapApp", "archive", "goPrefixRouteName", "goShowSchedule",
   "outdated", "distance", "latitude", "longitude", "timezone", "serviceTime",
   "serviceTimeShort"]

/-- The `if possibleKey not in route.keys(): route[possibleKey] = None` loop
of `getRoutes`: a non-dict record raises `AttributeError` at `.keys()`. -/
def routeRecordEnsured (v : Json) : Except PyErr (List (String × Json)) :=
  match v with
  | .obj kvs => .ok (addMissingKeys kvs possibleRouteKeys)
  | _ => .error .attributeError

/-- Embedding of `Route.__init__` (models.py lines 181-233): it accepts a
`timezone` argument but its body never stores it, so the result carries
every other argument and no timezone. -/
def routeInit (id groupId groupColor name shortName nameOrig fullname myid
    mapApp archive goPrefixRouteName goShowSchedule outdated distance
    latitude longitude timezone serviceTime serviceTimeShort : Json)
    (systemId : Option Int) (system : Option TransportationSystem) : Route :=
  { id := id, groupId := groupId, groupColor := groupColor, name := name,
    shortName := shortName, nameOrig := nameOrig, fullname := fullname,
    myid := myid, mapApp := mapApp, archive := archive,
    goPrefixRouteName := goPrefixRouteName, goShowSchedule := goShowSchedule,
    outdated := outdated, distance := distance, latitude := latitude,
    longitude := longitude, serviceTime := serviceTime,
    serviceTimeShort := serviceTimeShort, systemId := systemId,
    system := system }

/-- Per-record body of the `getRoutes` loop: default the `possibleRouteKeys`,
convert `route["userId"]` with `int(...)` (a missing `userId` raises
`KeyError`), and construct the `Route`.  Reads of defaulted keys are pure
lookups since the defaulting step guarantees their presence. -/
def parseRouteRecord (system : TransportationSystem) (v : Json) :
    Except PyErr Route := do
  let kvs ← routeRecordEnsured v
  let userIdJ ← jsonGetKv kvs "userId"
  let systemId ← pyInt userIdJ
  pure (routeInit
    ((lookupJ kvs "id").getD .null)
    ((lookupJ kvs "groupId").getD .null)
    ((lookupJ kvs "groupColor").getD .null)
    ((lookupJ kvs "name").getD .null)
    ((lookupJ kvs "shortName").getD .null)
    ((lookupJ kvs "nameOrig").getD .null)
    ((lookupJ kvs "fullname").getD .null)
    ((lookupJ kvs "myid").getD .null)
    ((lookupJ kvs "mapApp").getD .null)
    ((lookupJ kvs "archive").getD .null)
    ((lookupJ kvs "goPrefixRouteName").getD .null)
    ((lookupJ kvs "goShowSchedule").getD .null)
    ((lookupJ kvs "outdated").getD .null)
    ((lookupJ kvs "distance").getD .null)
    ((lookupJ kvs "latitude").getD .null)
    ((lookupJ kvs "longitude").getD .null)
    ((lookupJ kvs "timezone").getD .null)
    ((lookupJ kvs "serviceTime").getD .null)
    ((lookupJ kvs "serviceTimeShort").getD .null)
    (some systemId) (some system))

/-- Embedding of `getRoutes` from the decoded response on: an absent
response yields `none` (the Python `None`), a response wrapped under an
`"all"` key is unwrapped first, and each record becomes a `Route`. -/
def getRoutes (system : TransportationSystem) (decoded : Option Json) :
    Except PyErr (Option (List Route)) :=
  match decoded with
  | none => .ok none
  | some r0 => do
    let wrapped ← pyContains "all" r0
    let r ← if wrapped then pyGetItem r0 "all" else pure r0
    let records ← pyIterate r
    let out ← eachM (parseRouteRecord system) records
    pure (some out)

/-! ## Stop listing (client.py, `getStops`) -/

/-- Inner loop of the routes-and-stops table (client.py lines 354-357): scan
`route[2:]`, skip entries Python-equal to `0`, and keep `entry[1]` (the stop
id) of the remaining entries. -/
def collectStopIds : List Json → Except PyErr (List Json)
  | [] => .ok []
  | e :: es =>
    if pyEq e (.num 0) then collectStopIds es
    else do
      let x ← pyIndex e 1
      let rest ← collectStopIds es
      pure (x :: rest)

/-- Stop ids of one raw route value: `route[2:]` then `collectStopIds`. -/
def extractRouteStops (route : Json) : Except PyErr (List Json) := do
  let tail ← pySliceFrom route 2
  let entries ← pyIterate tail
  collectStopIds entries

/-- The `routesAndStops` table of `getStops` (client.py lines 351-357):
route id to placeholder-filtered stop-id list. -/
def buildRoutesAndStops (routeItems : List (String × Json)) :
    Except PyErr (List (String × List Json)) :=
  eachM (fun p => do
    let sids ← extractRouteStops p.2
    pure (p.1, sids)) routeItems

/-- The list comprehension `[i for i,x in enumerate(lst) if x == sid]`
(client.py line 370): all zero-based positions of `sid` in `lst` under
Python equality. -/
def positionsOf (lst : List Json) (sid : Json) : List Nat :=
  ((lst.enum).filter (fun q => pyEq q.2 sid)).map Prod.fst

/-- The `routesAndPositions` dictionary of one stop (client.py lines
366-370): for every route whose stop-id list contains this stop's id, the
positions of the id in that list. -/
def stopRAP (ras : List (String × List Json)) (sid : Json) :
    List (String × List Nat) :=
  ras.filterMap (fun p =>
    if p.2.any (fun e => pyEq sid e) then some (p.1, positionsOf p.2 sid)
    else none)

/-- The `routesAndPositions` computation reads `stop["id"]` once per route,
hence only when the routes table is non-empty. -/
def stopRAPRead (ras : List (String × List Json)) (v : Json) :
    Except PyErr (List (String × List Nat)) :=
  match ras with
  | [] => .ok []
  | _ :: _ => do
    let sid ← pyGetItem v "id"
    .ok (stopRAP ras sid)

/-- The `if key not in stop: stop[key] = None` defaulting of `userId` and
`radius` (client.py lines 373-376); every non-dict stop record ends in a
`TypeError` in the source (from the membership test, the item assignment or
the subsequent indexing), modelled uniformly here. -/
def stopRecordEnsured (v : Json) : Except PyErr (List (String × Json)) :=
  match v with
  | .obj kvs => .ok (addMissingKeys kvs ["userId", "radius"])
  | _ => .error .typeError

/-- The `None if stop["userId"] is None else int(stop["userId"])`
conversion of `getStops` (the `is None` identity test only accepts the
`None` object itself). -/
def userIdToSystemId (u : Json) : Except PyErr (Option Int) :=
  match u with
  | .null => .ok none
  | u2 => do
    let n ← pyInt u2
    pure (some n)

/-- Per-record body of the `getStops` loop: build `routesAndPositions`,
default `userId`/`radius`, convert `userId` (`None` stays `None`, otherwise
`int(...)`), and construct the `Stop`; `id`, `name`, `latitude` and
`longitude` are required keys (`KeyError` when absent). -/
def parseStopRecord (system : TransportationSystem)
    (ras : List (String × List Json)) (v : Json) : Except PyErr Stop := do
  let rap ← stopRAPRead ras v
  let kvs ← stopRecordEnsured v
  let sid ← jsonGetKv kvs "id"
  let systemId ← userIdToSystemId ((lookupJ kvs "userId").getD .null)
  let nameV ← jsonGetKv kvs "name"
  let latV ← jsonGetKv kvs "latitude"
  let lonV ← jsonGetKv kvs "longitude"
  pure { id := sid, routesAndPositions := rap, systemId := systemId,
         name := nameV, latitude := latV, longitude := lonV,
         radius := (lookupJ kvs "radius").getD .null, system := some system }

/-- Embedding of `getStops` from the decoded response on: an absent response
yields `none`; an empty `routes` or `stops` list is replaced by an empty
dict; the routes table is built and every stop record becomes a `Stop`. -/
def getStops (system : TransportationSystem) (decoded : Option Json) :
    Except PyErr (Option (List Stop)) :=
  match decoded with
  | none => .ok none
  | some r => do
    let routesV0 ← pyGetItem r "routes"
    let routesV := if pyEq routesV0 (.arr []) then .obj [] else routesV0
    let stopsV0 ← pyGetItem r "stops"
    let stopsV := if pyEq stopsV0 (.arr []) then .obj [] else stopsV0
    let routeItems ← pyItems routesV
    let ras ← buildRoutesAndStops routeItems
    let stopItems ← pyItems stopsV
    let out ← eachM (fun p => parseStopRecord system ras p.2) stopItems
    pure (some out)

/-! ## Alert listing (client.py, `getSystemAlerts`) -/

/-- Raw fields of one alert record, read in the source's keyword-argument
order; every key is required (`KeyError` when absent — `getSystemAlerts`
performs no defaulting). -/
structure AlertData where
  id : Json
  userId : Json
  routeId : Json
  name : Json
  html : Json
  archive : Json
  important : Json
  created : Json
  dateFrom : Json
  dateTo : Json
  asPush : Json
  gtfs : Json
  gtfsAlertCauseId : Json
  gtfsAlertEffectId : Json
  gtfsAlertUrl : Json
  gtfsAlertHeaderText : Json
  gtfsAlertDescriptionText : Json
  routeGroupId : Json
  createdUtc : Json
  authorId : Json
  author : Json
  updated : Json
  updateAuthorId : Json
  updateAuthor : Json
  createdF : Json
  fromF : Json
  fromOk : Json
  toOk : Json

/-- Field extraction for one alert record of `errorMsgs["msgs"]`. -/
def alertData (v : Json) : Except PyErr AlertData := do
  let id ← pyGetItem v "id"
  let userId ← pyGetItem v "userId"
  let routeId ← pyGetItem v "routeId"
  let name ← pyGetItem v "name"
  let html ← pyGetItem v "html"
  let archive ← pyGetItem v "archive"
  let important ← pyGetItem v "important"
  let created ← pyGetItem v "created"
  let dateFrom ← pyGetItem v "from"
  let dateTo ← pyGetItem v "to"
  let asPush ← pyGetItem v "asPush"
  let gtfs ← pyGetItem v "gtfs"
  let gtfsAlertCauseId ← pyGetItem v "gtfsAlertCauseId"
  let gtfsAlertEffectId ← pyGetItem v "gtfsAlertEffectId"
  let gtfsAlertUrl ← pyGetItem v "gtfsAlertUrl"
  let gtfsAlertHeaderText ← pyGetItem v "gtfsAlertHeaderText"
  let gtfsAlertDescriptionText ← pyGetItem v "gtfsAlertDescriptionText"
  let routeGroupId ← pyGetItem v "routeGroupId"
  let createdUtc ← pyGetItem v "createdUtc"
  let authorId ← pyGetItem v "authorId"
  let author ← pyGetItem v "author"
  let updated ← pyGetItem v "updated"
  let updateAuthorId ← pyGetItem v "updateAuthorId"
  let updateAuthor ← pyGetItem v "updateAuthor"
  let createdF ← pyGetItem v "createdF"
  let fromF ← pyGetItem v "fromF"
  let fromOk ← pyGetItem v "fromOk"
  let toOk ← pyGetItem v "toOk"
  pure { id := id, userId := userId, routeId := routeId, name := name,
         html := html, archive := archive, important := important,
         created := created, dateFrom := dateFrom, dateTo := dateTo,
         asPush := asPush, gtfs := gtfs,
         gtfsAlertCauseId := gtfsAlertCauseId,
         gtfsAlertEffectId := gtfsAlertEffectId,
         gtfsAlertUrl := gtfsAlertUrl,
         gtfsAlertHeaderText := gtfsAlertHeaderText,
         gtfsAlertDescriptionText := gtfsAlertDescriptionText,
         routeGroupId := routeGroupId, createdUtc := createdUtc,
         authorId := authorId, author := author, updated := updated,
         updateAuthorId := updateAuthorId, updateAuthor := updateAuthor,
         createdF := createdF, fromF := fromF, fromOk := fromOk,
         toOk := toOk }

/-- The `SystemAlert(...)` construction of `getSystemAlerts`: straight
passthrough of the record fields plus the `system` back-reference. -/
def alertOfData (system : TransportationSystem) (d : AlertData) : SystemAlert :=
  { id := d.id, systemId := d.userId, system := some system,
    routeId := d.routeId, name := d.name, html := d.html,
    archive := d.archive, important := d.important,
    dateTimeCreated := d.created, dateTimeFrom := d.dateFrom,
    dateTimeTo := d.dateTo, asPush := d.asPush, gtfs := d.gtfs,
    gtfsAlertCauseId := d.gtfsAlertCauseId,
    gtfsAlertEffectId := d.gtfsAlertEffectId,
    gtfsAlertUrl := d.gtfsAlertUrl,
    gtfsAlertHeaderText := d.gtfsAlertHeaderText,
    gtfsAlertDescriptionText := d.gtfsAlertDescriptionText,
    routeGroupId := d.routeGroupId, createdUtc := d.createdUtc,
    authorId := d.authorId, author := d.author, updated := d.updated,
    updateAuthorId := d.updateAuthorId, updateAuthor := d.updateAuthor,
    createdF := d.createdF, fromF := d.fromF, fromOk := d.fromOk,
    toOk := d.toOk }

/-- Per-record body of the `getSystemAlerts` loop. -/
def parseAlertRecord (system : TransportationSystem) (v : Json) :
    Except PyErr SystemAlert :=
  (alertData v).map (alertOfData system)

/-- Embedding of `getSystemAlerts` from the decoded response on: an absent
response yields `none`, otherwise each record of `errorMsgs["msgs"]` becomes
a `SystemAlert`. -/
def getSystemAlerts (system : TransportationSystem) (decoded : Option Json) :
    Except PyErr (Option (List SystemAlert)) :=
  match decoded with
  | none => .ok none
  | some r => do
    let msgs ← pyGetItem r "msgs"
    let records ← pyIterate msgs
    let out ← eachM (parseAlertRecord system) records
    pure (some out)

/-! ## Vehicle listing (client.py, `getVehicles`) -/

/-- The key list defaulted by `getVehicles` (client.py line 529). -/
def vehicleDefaultedKeys : List String :=
  ["busId", "busName", "busType", "calculatedCourse", "routeId", "route",
   "color", "created", "latitude", "longitude", "speed", "paxLoad100",
   "outOfService", "more", "tripId"]

/-- The `if key not in vehicle: vehicle[key] = None` defaulting of
`getVehicles`; as for stop records, a non-dict record ends in a `TypeError`
in the source. -/
def vehicleRecordEnsured (v : Json) : Except PyErr (List (String × Json)) :=
  match v with
  | .obj kvs => .ok (addMissingKeys kvs vehicleDefaultedKeys)
  | _ => .error .typeError

/-- Per-entry body of the `getVehicles` loop: take `vehicle[0]`, default the
`vehicleDefaultedKeys`, and construct the `Vehicle` with the source's field
renames (`busId` to `id`, `busName` to `name`, `busType` to `type`, `route`
to `routeName`, `paxLoad100` to `paxLoad`).  Reads are pure lookups since
the defaulting step guarantees presence of every key read. -/
def parseVehicleEntry (system : TransportationSystem) (v : Json) :
    Except PyErr Vehicle := do
  let rec0 ← pyIndex v 0
  let kvs ← vehicleRecordEnsured rec0
  pure { id := (lookupJ kvs "busId").getD .null,
         name := (lookupJ kvs "busName").getD .null,
         type := (lookupJ kvs "busType").getD .null,
         system := some system,
         calculatedCourse := (lookupJ kvs "calculatedCourse").getD .null,
         routeId := (lookupJ kvs "routeId").getD .null,
         routeName := (lookupJ kvs "route").getD .null,
         color := (lookupJ kvs "color").getD .null,
         created := (lookupJ kvs "created").getD .null,
         latitude := (lookupJ kvs "latitude").getD .null,
         longitude := (lookupJ kvs "longitude").getD .null,
         speed := (lookupJ kvs "speed").getD .null,
         paxLoad := (lookupJ kvs "paxLoad100").getD .null,
         outOfService := (lookupJ kvs "outOfService").getD .null,
         more := (lookupJ kvs "more").getD .null,
         tripId := (lookupJ kvs "tripId").getD .null }

/-- The `for vehicleId, vehicle in vehicles["buses"].items()` loop with its
`if vehicleId == '-1': continue` skip. -/
def vehicleLoop (system : TransportationSystem) :
    List (String × Json) → Except PyErr (List Vehicle)
  | [] => .ok []
  | (vid, v) :: rest =>
    if vid == "-1" then vehicleLoop system rest
    else do
      let x ← parseVehicleEntry system v
      let xs ← vehicleLoop system rest
      pure (x :: xs)

/-- Embedding of `getVehicles` from the decoded response on: an absent
response yields `none`, otherwise the entries of `vehicles["buses"]` other
than the `"-1"` sentinel become `Vehicle`s. -/
def getVehicles (system : TransportationSystem) (decoded : Option Json) :
    Except PyErr (Option (List Vehicle)) :=
  match decoded with
  | none => .ok none
  | some r => do
    let buses ← pyGetItem r "buses"
    let items ← pyItems buses
    let out ← vehicleLoop system items
    pure (some out)

/-! ## Derived query (models.py, `Route.getStops`) -/

/-- Embedding of `Route.getStops` (models.py lines 236-258) applied to the
stop listing of the owning system: keep the stops whose
`routesAndPositions` keys contain the route's `myid`, or `id`, or
`groupId`, with the source's three separate membership tests. -/
def Route.getStopsOn (route : Route) (allStops : List Stop) : List Stop :=
  allStops.filter (fun stop =>
    let keys := stop.routesAndPositions.map Prod.fst
    keys.any (fun k => pyEq route.myid (.str k)) ||
    keys.any (fun k => pyEq route.id (.str k)) ||
    keys.any (fun k => pyEq route.groupId (.str k)))

/-! ## Spec-side definitions

These definitions are written from the specification's words, to be compared
with the embedded code. -/

/-- Spec-side predicate for §4.7: the stop's `routesAndPositions` keys
include the route's `myid`, `id`, or `groupId` (logical OR across the three
identifier spaces, comparison being Python equality against the string
keys). -/
def specRouteServesStop (route : Route) (stop : Stop) : Bool :=
  (stop.routesAndPositions.map Prod.fst).any (fun k =>
    pyEq route.myid (.str k) || pyEq route.id (.str k) ||
    pyEq route.groupId (.str k))

/-- Head record of a raw vehicle entry (the one-element array wrapping of
§4.6): the dict entries of `entry[0]`. -/
def vehicleHeadRecord (v : Json) : List (String × Json) :=
  match v with
  | .arr (.obj kvs :: _) => kvs
  | _ => []

/-- Spec-side vehicle construction for §4.6: missing fields among the
enumerated set default to null, and the raw fields are renamed `busId` to
`id`, `busName` to `name`, `busType` to `type`, `route` to `routeName` and
`paxLoad100` to `paxLoad`. -/
def specVehicleOfRecord (system : TransportationSystem)
    (kvs : List (String × Json)) : Vehicle :=
  { id := (lookupJ kvs "busId").getD .null,
    name := (lookupJ kvs "busName").getD .null,
    type := (lookupJ kvs "busType").getD .null,
    system := some system,
    calculatedCourse := (lookupJ kvs "calculatedCourse").getD .null,
    routeId := (lookupJ kvs "routeId").getD .null,
    routeName := (lookupJ kvs "route").getD .null,
    color := (lookupJ kvs "color").getD .null,
    created := (lookupJ kvs "created").getD .null,
    latitude := (lookupJ kvs "latitude").getD .null,
    longitude := (lookupJ kvs "longitude").getD .null,
    speed := (lookupJ kvs "speed").getD .null,
    paxLoad := (lookupJ kvs "paxLoad100").getD .null,
    outOfService := (lookupJ kvs "outOfService").getD .null,
    more := (lookupJ kvs "more").getD .null,
    tripId := (lookupJ kvs "tripId").getD .null }

/-- A stop records position `i` for route `rid` in its
`routesAndPositions`. -/
def recordsPosition (rid : String) (i : Nat) (s : Stop) : Bool :=
  (((s.routesAndPositions.find? (fun q => q.1 == rid)).map
    Prod.snd).getD []).contains i

/-- Spec-side reconstruction for the §8 round-trip property: rebuild a
route's stop-id list from the stops' `routesAndPositions` by looking up, for
each position, the first stop recording that position for the route
(`none` when no stop records it). -/
def reconstructRouteStopIds (stops : List Stop) (rid : String) (n : Nat) :
    List (Option Json) :=
  (List.range n).map (fun i => (stops.find? (recordsPosition rid i)).map Stop.id)

/-! ## Concrete values used by witnesses and counterexamples -/

/-- A concrete transportation system for instantiating the listing calls. -/
def exampleSystem : TransportationSystem :=
  { id := 1270, name := some "Example University", username := some "example",
    goAgencyName := none, email := none, goTestMode := some false,
    name2 := some false, homepage := none, logo := some false,
    goRoutePlannerEnabled := some false, goColor := none,
    goSupportEmail := none, goSharedCode := none,
    goAuthenticationType := some false }

/-! ## Helper lemmas -/

theorem exceptBind_ok_elim {m : Except PyErr α} {k : α → Except PyErr β}
    {y : β} (h : (m >>= k) = .ok y) : ∃ a, m = .ok a ∧ k a = .ok y := by
  cases m with
  | ok a => exact ⟨a, rfl, h⟩
  | error e => simp [Bind.bind, Except.bind] at h

@[simp] theorem exceptBind_ok (a : α) (k : α → Except PyErr β) :
    ((Except.ok a : Except PyErr α) >>= k) = k a := rfl

@[simp] theorem exceptBind_error (e : PyErr) (k : α → Except PyErr β) :
    ((Except.error e : Except PyErr α) >>= k) = .error e := rfl

@[simp] theorem exceptMap_ok (f : α → β) (a : α) :
    (Except.ok a : Except PyErr α).map f = .ok (f a) := rfl

@[simp] theorem exceptMap_error (f : α → β) (e : PyErr) :
    (Except.error e : Except PyErr α).map f = .error e := rfl

theorem eachM_mem {f : α → Except PyErr β} :
    ∀ {l : List α} {ys : List β}, eachM f l = .ok ys →
      ∀ y ∈ ys, ∃ x ∈ l, f x = .ok y := by
  intro l
  induction l with
  | nil =>
    intro ys h y hy
    simp [eachM] at h
    subst h
    simp at hy
  | cons x xs ih =>
    intro ys h y hy
    simp only [eachM] at h
    obtain ⟨a, ha, h2⟩ := exceptBind_ok_elim h
    obtain ⟨as, has, h3⟩ := exceptBind_ok_elim h2
    simp only [pure, Except.pure, Except.ok.injEq] at h3
    subst h3
    rcases List.mem_cons.mp hy with rfl | hmem
    · exact ⟨x, List.mem_cons_self x xs, ha⟩
    · obtain ⟨x2, hx2, hfx2⟩ := ih has y hmem
      exact ⟨x2, List.mem_cons_of_mem x hx2, hfx2⟩

theorem eachM_length {f : α → Except PyErr β} :
    ∀ {l : List α} {ys : List β}, eachM f l = .ok ys → ys.length = l.length := by
  intro l
  induction l with
  | nil =>
    intro ys h
    simp [eachM] at h
    subst h
    rfl
  | cons x xs ih =>
    intro ys h
    simp only [eachM] at h
    obtain ⟨a, _, h2⟩ := exceptBind_ok_elim h
    obtain ⟨as, has, h3⟩ := exceptBind_ok_elim h2
    simp only [pure, Except.pure, Except.ok.injEq] at h3
    subst h3
    simp [ih has]

theorem eachM_map_eq {f : α → Except PyErr β} {g : α → β} :
    ∀ {l : List α}, (∀ x ∈ l, f x = .ok (g x)) → eachM f l = .ok (l.map g) := by
  intro l
  induction l with
  | nil => intro _; rfl
  | cons x xs ih =>
    intro h
    have hx := h x (List.mem_cons_self x xs)
    have hxs := ih (fun a ha => h a (List.mem_cons_of_mem x ha))
    simp [eachM, hx, hxs, pure, Except.pure]

theorem lookupJ_append_of_ne {kvs : List (String × Json)} {k k2 : String}
    {v : Json} (h : k ≠ k2) :
    lookupJ (kvs ++ [(k2, v)]) k = lookupJ kvs k := by
  induction kvs with
  | nil => simp [lookupJ, (by simpa using Ne.symm h : (k2 == k) = false)]
  | cons p rest ih =>
    obtain ⟨pk, pv⟩ := p
    by_cases hpk : pk == k
    · simp [lookupJ, hpk]
    · simpa [lookupJ, hpk] using ih

theorem lookupJ_append_self {kvs : List (String × Json)} {k : String}
    {v : Json} (h : lookupJ kvs k = none) :
    lookupJ (kvs ++ [(k, v)]) k = some v := by
  induction kvs with
  | nil => simp [lookupJ]
  | cons p rest ih =>
    obtain ⟨pk, pv⟩ := p
    simp only [lookupJ] at h ⊢
    by_cases hpk : pk == k
    · simp [hpk] at h
    · simp only [hpk, Bool.false_eq_true, if_neg] at h ⊢
      · exact ih h

theorem addMissingKeys_lookup_of_not_mem {k : String} :
    ∀ (ks : List String) (kvs : List (String × Json)), k ∉ ks →
      lookupJ (addMissingKeys kvs ks) k = lookupJ kvs k := by
  intro ks
  induction ks with
  | nil => intro kvs _; rfl
  | cons k2 rest ih =>
    intro kvs hk
    have hne : k ≠ k2 := fun h => hk (h ▸ List.mem_cons_self k2 rest)
    have hrest : k ∉ rest := fun h => hk (List.mem_cons_of_mem k2 h)
    simp only [addMissingKeys]
    by_cases hsome : (lookupJ kvs k2).isSome
    · simp [hsome, ih _ hrest]
    · simp only [hsome, Bool.false_eq_true, if_neg, ih _ hrest]
      exact lookupJ_append_of_ne hne

theorem addMissingKeys_lookup_mem {k : String} :
    ∀ (ks : List String) (kvs : List (String × Json)), k ∈ ks →
      lookupJ (addMissingKeys kvs ks) k = some ((lookupJ kvs k).getD .null) := by
  intro ks
  induction ks with
  | nil => intro kvs h; simp at h
  | cons k2 rest ih =>
    intro kvs hk
    simp only [addMissingKeys]
    by_cases hmem : k ∈ rest
    · -- handled by the recursive call; the head step preserves the lookup
      have base : lookupJ (if (lookupJ kvs k2).isSome then kvs
          else kvs ++ [(k2, .null)]) k = lookupJ kvs k ∨
          (lookupJ (if (lookupJ kvs k2).isSome then kvs
          else kvs ++ [(k2, .null)]) k = some .null ∧ lookupJ kvs k = none) := by
        by_cases hsome : (lookupJ kvs k2).isSome
        · simp [hsome]
        · simp only [hsome, Bool.false_eq_true, if_neg]
          by_cases hkk : k = k2
          · subst hkk
            right
            rcases hnone : lookupJ kvs k with _ | w
            · exact ⟨lookupJ_append_self hnone, rfl⟩
            · simp [hnone] at hsome
          · left
            exact lookupJ_append_of_ne hkk
      rcases base with heq | ⟨heq, hnone⟩
      · rw [ih _ hmem, heq]
      · rw [ih _ hmem, heq, hnone]
        rfl
    · have hkk : k = k2 := by
        rcases List.mem_cons.mp hk with h | h
        · exact h
        · exact absurd h hmem
      subst hkk
      by_cases hsome : (lookupJ kvs k).isSome
      · obtain ⟨w, hw⟩ := Option.isSome_iff_exists.mp hsome
        simp only [hsome, if_pos]
        rw [addMissingKeys_lookup_of_not_mem _ _ hmem, hw]
        rfl
      · have hnone : lookupJ kvs k = none := Option.not_isSome_iff_eq_none.mp hsome
        rw [hnone, if_neg (by simp)]
        rw [addMissingKeys_lookup_of_not_mem _ _ hmem,
          lookupJ_append_self hnone]
        rfl

theorem jsonGetKv_ok {kvs : List (String × Json)} {k : String} {x : Json} :
    jsonGetKv kvs k = .ok x ↔ lookupJ kvs k = some x := by
  unfold jsonGetKv
  cases h : lookupJ kvs k <;> simp [h]

theorem mem_positionsOf {lst : List Json} {sid : Json} {p : Nat} :
    p ∈ positionsOf lst sid ↔
      ∃ h : p < lst.length, pyEq (lst.get ⟨p, h⟩) sid = true := by
  unfold positionsOf
  constructor
  · intro hp
    obtain ⟨⟨i, x⟩, hq, hfst⟩ := List.mem_map.mp hp
    obtain ⟨henum, hpred⟩ := List.mem_filter.mp hq
    have hx : lst[i]? = some x := List.mk_mem_enum_iff_getElem?.mp henum
    obtain ⟨hlt, hget⟩ := List.getElem?_eq_some.mp hx
    have hip : i = p := hfst
    subst hip
    exact ⟨hlt, by simpa [List.get_eq_getElem, hget] using hpred⟩
  · rintro ⟨h, hpy⟩
    refine List.mem_map.mpr ⟨(p, lst.get ⟨p, h⟩), ?_, rfl⟩
    refine List.mem_filter.mpr ⟨?_, hpy⟩
    exact List.mk_mem_enum_iff_getElem?.mpr (by simp [List.get_eq_getElem])

theorem mem_stopRAP {ras : List (String × List Json)} {sid : Json}
    {rid : String} {ps : List Nat} :
    (rid, ps) ∈ stopRAP ras sid ↔
      ∃ sids, (rid, sids) ∈ ras ∧ (sids.any (fun e => pyEq sid e)) = true ∧
        ps = positionsOf sids sid := by
  unfold stopRAP
  rw [List.mem_filterMap]
  constructor
  · rintro ⟨⟨rid2, sids⟩, hmem, hf⟩
    by_cases hc : (sids.any (fun e => pyEq sid e)) = true
    · rw [if_pos hc] at hf
      simp only [Option.some.injEq, Prod.mk.injEq] at hf
      obtain ⟨rfl, rfl⟩ := hf
      exact ⟨sids, hmem, hc, rfl⟩
    · rw [if_neg hc] at hf
      cases hf
  · rintro ⟨sids, hmem, hc, rfl⟩
    exact ⟨(rid, sids), hmem, by simp [hc]⟩

theorem stopRAP_key_mem {ras : List (String × List Json)} {sid : Json}
    {q : String × List Nat} (hq : q ∈ stopRAP ras sid) :
    q.1 ∈ ras.map Prod.fst := by
  unfold stopRAP at hq
  obtain ⟨a, ha, hf⟩ := List.mem_filterMap.mp hq
  by_cases hc : (a.2.any (fun e => pyEq sid e)) = true
  · rw [if_pos hc] at hf
    have : q.1 = a.1 := by
      cases Option.some.inj hf
      rfl
    rw [this]
    exact List.mem_map_of_mem Prod.fst ha
  · rw [if_neg hc] at hf
    cases hf

theorem stopRAP_find_none {ras : List (String × List Json)} {sid : Json}
    {rid : String} (h : rid ∉ ras.map Prod.fst) :
    (stopRAP ras sid).find? (fun q => q.1 == rid) = none := by
  rw [List.find?_eq_none]
  intro q hq hpred
  have hk : q.1 = rid := by simpa using hpred
  exact h (hk ▸ stopRAP_key_mem hq)

theorem stopRAP_cons {p : String × List Json} {rest : List (String × List Json)}
    {sid : Json} :
    stopRAP (p :: rest) sid =
      if p.2.any (fun e => pyEq sid e) then
        (p.1, positionsOf p.2 sid) :: stopRAP rest sid
      else stopRAP rest sid := by
  unfold stopRAP
  rw [List.filterMap_cons]
  by_cases hc : (p.2.any (fun e => pyEq sid e)) = true
  · rw [if_pos hc, if_pos hc]
  · rw [if_neg hc, if_neg hc]

theorem stopRAP_find_of_nodup {ras : List (String × List Json)} {sid : Json}
    {rid : String} {sids : List Json} (hmem : (rid, sids) ∈ ras)
    (hnd : (ras.map Prod.fst).Nodup) :
    (stopRAP ras sid).find? (fun q => q.1 == rid) =
      if sids.any (fun e => pyEq sid e) then
        some (rid, positionsOf sids sid)
      else none := by
  induction ras with
  | nil => simp at hmem
  | cons p rest ih =>
    obtain ⟨k, l⟩ := p
    rw [List.map_cons, List.nodup_cons] at hnd
    obtain ⟨hknotin, hndrest⟩ := hnd
    rcases List.mem_cons.mp hmem with heq | hmemrest
    · obtain ⟨rfl, rfl⟩ : rid = k ∧ sids = l := by
        simpa [eq_comm] using heq
      rw [stopRAP_cons]
      by_cases hany : (sids.any (fun e => pyEq sid e)) = true
      · rw [if_pos hany, if_pos hany]
        simp [List.find?_cons]
      · rw [if_neg hany, if_neg hany]
        exact stopRAP_find_none hknotin
    · have hkne : (k == rid) = false := by
        have : rid ∈ rest.map Prod.fst :=
          List.mem_map_of_mem Prod.fst hmemrest
        simp only [beq_eq_false_iff_ne, ne_eq]
        intro hk
        exact hknotin (hk ▸ this)
      rw [stopRAP_cons]
      by_cases hany : (l.any (fun e => pyEq sid e)) = true
      · rw [if_pos hany, List.find?_cons]
        simp only [hkne]
        exact ih hmemrest hndrest
      · rw [if_neg hany]
        exact ih hmemrest hndrest

theorem parseStopRecord_fields {sys : TransportationSystem}
    {ras : List (String × List Json)} {v : Json} {s : Stop}
    (h : parseStopRecord sys ras v = .ok s) :
    s.routesAndPositions = stopRAP ras s.id ∧ s.system = some sys := by
  unfold parseStopRecord at h
  obtain ⟨rap, hrap, h⟩ := exceptBind_ok_elim h
  obtain ⟨kvs, hkvs, h⟩ := exceptBind_ok_elim h
  obtain ⟨sid, hsid, h⟩ := exceptBind_ok_elim h
  obtain ⟨sysId, hsysId, h⟩ := exceptBind_ok_elim h
  obtain ⟨nameV, hname, h⟩ := exceptBind_ok_elim h
  obtain ⟨latV, hlat, h⟩ := exceptBind_ok_elim h
  obtain ⟨lonV, hlon, h⟩ := exceptBind_ok_elim h
  simp only [pure, Except.pure, Except.ok.injEq] at h
  subst h
  refine ⟨?_, rfl⟩
  show rap = stopRAP ras sid
  cases ras with
  | nil =>
    simp only [stopRAPRead, Except.ok.injEq] at hrap
    subst hrap
    rfl
  | cons r rs =>
    simp only [stopRAPRead] at hrap
    obtain ⟨sid0, hsid0, heq⟩ := exceptBind_ok_elim hrap
    simp only [Except.ok.injEq] at heq
    subst heq
    -- the two reads of `stop["id"]` agree: the defaulting of `userId` and
    -- `radius` does not affect the `"id"` lookup
    cases v with
    | obj kvs0 =>
      simp only [stopRecordEnsured, Except.ok.injEq] at hkvs
      subst hkvs
      have hpre : lookupJ (addMissingKeys kvs0 ["userId", "radius"]) "id" =
          lookupJ kvs0 "id" :=
        addMissingKeys_lookup_of_not_mem _ _ (by simp)
      have h1 : lookupJ kvs0 "id" = some sid0 := by
        simpa [pyGetItem] using
          (by cases hl : lookupJ kvs0 "id" <;>
            simp [pyGetItem, hl] at hsid0 <;> simp [hsid0] :
            lookupJ kvs0 "id" = some sid0)
      have h2 : lookupJ kvs0 "id" = some sid := by
        rw [← hpre]
        exact jsonGetKv_ok.mp hsid
      rw [h1] at h2
      cases Option.some.inj h2
      rfl
    | null => simp [stopRecordEnsured] at hkvs
    | bool b => simp [stopRecordEnsured] at hkvs
    | num n => simp [stopRecordEnsured] at hkvs
    | str s2 => simp [stopRecordEnsured] at hkvs
    | arr xs => simp [stopRecordEnsured] at hkvs

theorem parseRouteRecord_system {sys : TransportationSystem} {v : Json}
    {r : Route} (h : parseRouteRecord sys v = .ok r) : r.system = some sys := by
  unfold parseRouteRecord at h
  obtain ⟨kvs, _, h⟩ := exceptBind_ok_elim h
  obtain ⟨userIdJ, _, h⟩ := exceptBind_ok_elim h
  obtain ⟨systemId, _, h⟩ := exceptBind_ok_elim h
  simp only [pure, Except.pure, Except.ok.injEq] at h
  subst h
  rfl

theorem parseAlertRecord_system {sys : TransportationSystem} {v : Json}
    {a : SystemAlert} (h : parseAlertRecord sys v = .ok a) :
    a.system = some sys := by
  unfold parseAlertRecord at h
  cases hd : alertData v with
  | ok d =>
    rw [hd] at h
    simp only [exceptMap_ok, Except.ok.injEq] at h
    subst h
    rfl
  | error e =>
    rw [hd] at h
    simp at h

theorem parseVehicleEntry_system {sys : TransportationSystem} {v : Json}
    {x : Vehicle} (h : parseVehicleEntry sys v = .ok x) :
    x.system = some sys := by
  unfold parseVehicleEntry at h
  obtain ⟨rec0, _, h⟩ := exceptBind_ok_elim h
  obtain ⟨kvs, _, h⟩ := exceptBind_ok_elim h
  simp only [pure, Except.pure, Except.ok.injEq] at h
  subst h
  rfl

theorem vehicleLoop_mem {sys : TransportationSystem} :
    ∀ {items : List (String × Json)} {vs : List Vehicle},
      vehicleLoop sys items = .ok vs →
      ∀ x ∈ vs, ∃ p ∈ items, ¬p.1 = "-1" ∧ parseVehicleEntry sys p.2 = .ok x := by
  intro items
  induction items with
  | nil =>
    intro vs h x hx
    simp only [vehicleLoop, Except.ok.injEq] at h
    subst h
    simp at hx
  | cons p rest ih =>
    obtain ⟨vid, v⟩ := p
    intro vs h x hx
    simp only [vehicleLoop] at h
    by_cases hvid : (vid == "-1") = true
    · rw [if_pos hvid] at h
      obtain ⟨q, hq, hne, hp⟩ := ih h x hx
      exact ⟨q, List.mem_cons_of_mem _ hq, hne, hp⟩
    · rw [if_neg hvid] at h
      obtain ⟨y, hy, h⟩ := exceptBind_ok_elim h
      obtain ⟨ys, hys, h⟩ := exceptBind_ok_elim h
      simp only [pure, Except.pure, Except.ok.injEq] at h
      subst h
      rcases List.mem_cons.mp hx with rfl | hmem
      · exact ⟨(vid, v), List.mem_cons_self _ _, by simpa using hvid, hy⟩
      · obtain ⟨q, hq, hne, hp⟩ := ih hys x hmem
        exact ⟨q, List.mem_cons_of_mem _ hq, hne, hp⟩

@[simp] theorem exceptPure_eq_ok (a : α) : (pure a : Except PyErr α) = .ok a := rfl

theorem list_any_or_distrib (l : List α) (f g : α → Bool) :
    l.any (fun x => f x || g x) = (l.any f || l.any g) := by
  induction l with
  | nil => rfl
  | cons x xs ih =>
    simp only [List.any_cons, ih]
    cases f x <;> cases g x <;> simp

/-- Bool test that a decoded value is a JSON object (the shape of a raw
route record). -/
def Json.isObj : Json → Bool
  | .obj _ => true
  | _ => false

/-! ## Claim theorems -/

/-- C10: the `Route` constructor accepts a `timezone` argument and discards
it: the constructed route does not depend on the timezone argument, while
every other accepted field is stored unchanged. -/
theorem routeInit_discards_timezone :
    ∀ (id groupId groupColor name shortName nameOrig fullname myid mapApp
       archive goPrefixRouteName goShowSchedule outdated distance latitude
       longitude tz1 tz2 serviceTime serviceTimeShort : Json)
      (systemId : Option Int) (system : Option TransportationSystem),
      routeInit id groupId groupColor name shortName nameOrig fullname myid
          mapApp archive goPrefixRouteName goShowSchedule outdated distance
          latitude longitude tz1 serviceTime serviceTimeShort systemId system =
        routeInit id groupId groupColor name shortName nameOrig fullname myid
          mapApp archive goPrefixRouteName goShowSchedule outdated distance
          latitude longitude tz2 serviceTime serviceTimeShort systemId system ∧
      (routeInit id groupId groupColor name shortName nameOrig fullname myid
          mapApp archive goPrefixRouteName goShowSchedule outdated distance
          latitude longitude tz1 serviceTime serviceTimeShort systemId
          system).id = id ∧
      (routeInit id groupId groupColor name shortName nameOrig fullname myid
          mapApp archive goPrefixRouteName goShowSchedule outdated distance
          latitude longitude tz1 serviceTime serviceTimeShort systemId
          system).groupId = groupId ∧
      (routeInit id groupId groupColor name shortName nameOrig fullname myid
          mapApp archive goPrefixRouteName goShowSchedule outdated distance
          latitude longitude tz1 serviceTime serviceTimeShort systemId
          system).groupColor = groupColor ∧
      (routeInit id groupId groupColor name shortName nameOrig fullname myid
          mapApp archive goPrefixRouteName goShowSchedule outdated distance
          latitude longitude tz1 serviceTime serviceTimeShort systemId
          system).name = name ∧
      (routeInit id groupId groupColor name shortName nameOrig fullname myid
          mapApp archive goPrefixRouteName goShowSchedule outdated distance
          latitude longitude tz1 serviceTime serviceTimeShort systemId
          system).shortName = shortName ∧
      (routeInit id groupId groupColor name shortName nameOrig fullname myid
          mapApp archive goPrefixRouteName goShowSchedule outdated distance
          latitude longitude tz1 serviceTime serviceTimeShort systemId
          system).nameOrig = nameOrig ∧
      (routeInit id groupId groupColor name shortName nameOrig fullname myid
          mapApp archive goPrefixRouteName goShowSchedule outdated distance
          latitude longitude tz1 serviceTime serviceTimeShort systemId
          system).fullname = fullname ∧
      (routeInit id groupId groupColor name shortName nameOrig fullname myid
          mapApp archive goPrefixRouteName goShowSchedule outdated distance
          latitude longitude tz1 serviceTime serviceTimeShort systemId
          system).myid = myid ∧
      (routeInit id groupId groupColor name shortName nameOrig fullname myid
          mapApp archive goPrefixRouteName goShowSchedule outdated distance
          latitude longitude tz1 serviceTime serviceTimeShort systemId
          system).mapApp = mapApp ∧
      (routeInit id groupId groupColor name shortName nameOrig fullname myid
          mapApp archive goPrefixRouteName goShowSchedule outdated distance
          latitude longitude tz1 serviceTime serviceTimeShort systemId
          system).archive = archive ∧
      (routeInit id groupId groupColor name shortName nameOrig fullname myid
          mapApp archive goPrefixRouteName goShowSchedule outdated distance
          latitude longitude tz1 serviceTime serviceTimeShort systemId
          system).goPrefixRouteName = goPrefixRouteName ∧
      (routeInit id groupId groupColor name shortName nameOrig fullname myid
          mapApp archive goPrefixRouteName goShowSchedule outdated distance
          latitude longitude tz1 serviceTime serviceTimeShort systemId
          system).goShowSchedule = goShowSchedule ∧
      (routeInit id groupId groupColor name shortName nameOrig fullname myid
          mapApp archive goPrefixRouteName goShowSchedule outdated distance
          latitude longitude tz1 serviceTime serviceTimeShort systemId
          system).outdated = outdated ∧
      (routeInit id groupId groupColor name shortName nameOrig fullname myid
          mapApp archive goPrefixRouteName goShowSchedule outdated distance
          latitude longitude tz1 serviceTime serviceTimeShort systemId
          system).distance = distance ∧
      (routeInit id groupId groupColor name shortName nameOrig fullname myid
          mapApp archive goPrefixRouteName goShowSchedule outdated distance
          latitude longitude tz1 serviceTime serviceTimeShort systemId
          system).latitude = latitude ∧
      (routeInit id groupId groupColor name shortName nameOrig fullname myid
          mapApp archive goPrefixRouteName goShowSchedule outdated distance
          latitude longitude tz1 serviceTime serviceTimeShort systemId
          system).longitude = longitude ∧
      (routeInit id groupId groupColor name shortName nameOrig fullname myid
          mapApp archive goPrefixRouteName goShowSchedule outdated distance
          latitude longitude tz1 serviceTime serviceTimeShort systemId
          system).serviceTime = serviceTime ∧
      (routeInit id groupId groupColor name shortName nameOrig fullname myid
          mapApp archive goPrefixRouteName goShowSchedule outdated distance
          latitude longitude tz1 serviceTime serviceTimeShort systemId
          system).serviceTimeShort = serviceTimeShort ∧
      (routeInit id groupId groupColor name shortName nameOrig fullname myid
          mapApp archive goPrefixRouteName goShowSchedule outdated distance
          latitude longitude tz1 serviceTime serviceTimeShort systemId
          system).systemId = systemId ∧
      (routeInit id groupId groupColor name shortName nameOrig fullname myid
          mapApp archive goPrefixRouteName goShowSchedule outdated distance
          latitude longitude tz1 serviceTime serviceTimeShort systemId
          system).system = system := by
  intros
  exact ⟨rfl, rfl, rfl, rfl, rfl, rfl, rfl, rfl, rfl, rfl, rfl, rfl, rfl,
    rfl, rfl, rfl, rfl, rfl, rfl, rfl, rfl⟩

/-- C3 (amended): on an absent transport response, `getSystems` returns the
empty list while `getRoutes` and `getSystemAlerts` both return `None`. -/
theorem absent_response_sentinels :
    ∀ sys : TransportationSystem,
      getSystems none = .ok [] ∧ getRoutes sys none = .ok none ∧
        getSystemAlerts sys none = .ok none :=
  fun _ => ⟨rfl, rfl, rfl⟩

/-- C3 counterexample: the claim states that `getRoutes` returns an empty
sequence on an absent response; the code returns `None`, which is not the
empty sequence. -/
theorem getRoutes_absent_response_counterexample :
    getRoutes exampleSystem none = .ok none ∧
      getRoutes exampleSystem none ≠ .ok (some []) :=
  ⟨rfl, fun h => Option.noConfusion (Except.ok.inj h)⟩

/-- Characterization (from the spec's words) of a decoded response object
carrying a non-empty `error` field: the key is present and its value is not
the empty string. -/
def hasNonEmptyErrorField (kvs : List (String × Json)) : Bool :=
  match lookupJ kvs "error" with
  | some v => !(pyEq v (.str ""))
  | none => false

/-- C6 (amended): `sendApiRequest` raises a decode error exactly on an
unparseable body and, for every response that parses to a JSON object,
raises an API error exactly when the object carries a non-empty `error`
field, returning the parsed object unchanged otherwise.  (For responses
parsing to `null`, a boolean or a number, the source's `"error" in response`
membership test itself raises a `TypeError`, which is why the claim is
restricted to object responses.) -/
theorem sendApiRequest_error_characterization :
    sendApiRequest none = .error .decodeError ∧
      ∀ kvs : List (String × Json),
        sendApiRequest (some (.obj kvs)) =
          if hasNonEmptyErrorField kvs then .error .apiError
          else .ok (.obj kvs) := by
  refine ⟨rfl, fun kvs => ?_⟩
  unfold sendApiRequest responseErrorCheck hasNonEmptyErrorField
  cases h : lookupJ kvs "error" with
  | none => simp [pyContains, h]
  | some v =>
    simp only [pyContains, h, Option.isSome_some, exceptBind_ok, if_true]
    simp [pyGetItem, h]

/-- C6 counterexample: a response body decoding to JSON `null` raises a
`TypeError` — an error that is neither the decode failure nor the non-empty
`error` field case, contradicting the claimed "if and only if". -/
theorem sendApiRequest_null_response_counterexample :
    sendApiRequest (some Json.null) = .error PyErr.typeError ∧
      sendApiRequest (some Json.null) ≠ .error PyErr.decodeError ∧
      sendApiRequest (some Json.null) ≠ .error PyErr.apiError :=
  ⟨rfl, fun h => PyErr.noConfusion (Except.error.inj h),
    fun h => PyErr.noConfusion (Except.error.inj h)⟩

/-- C4: for every route-list payload (a list of route records, i.e. JSON
objects), `getRoutes` on the response wrapped under `"all"` and on the bare
list produce identical results. -/
theorem getRoutes_wrapped_unwrapped (sys : TransportationSystem)
    (records : List Json) (H : ∀ x ∈ records, x.isObj = true) :
    getRoutes sys (some (.obj [("all", .arr records)])) =
      getRoutes sys (some (.arr records)) := by
  have hany : (records.any fun e => pyEq (.str "all") e) = false := by
    rw [List.any_eq_false]
    intro x hx
    have hobj := H x hx
    cases x <;> simp [Json.isObj] at hobj <;> simp [pyEq]
  simp [getRoutes, pyContains, lookupJ, pyGetItem, pyIterate, hany]

/-- C4 witness payload: a single route record. -/
def routeRecordsC4 : List Json := [.obj [("id", .str "1"), ("userId", .str "7")]]

/-- Witness for C4 at a concrete one-record payload. -/
theorem getRoutes_wrapped_unwrapped_witness :
    getRoutes exampleSystem (some (.obj [("all", .arr routeRecordsC4)])) =
      getRoutes exampleSystem (some (.arr routeRecordsC4)) :=
  getRoutes_wrapped_unwrapped exampleSystem routeRecordsC4 (by
    intro x hx
    simp only [routeRecordsC4, List.mem_singleton] at hx
    subst hx
    rfl)

/-- A route whose `groupId` alone matches a stop's association key. -/
def exampleGroupRoute : Route :=
  { id := .str "routeI", groupId := .str "groupG", groupColor := .null,
    name := .null, shortName := .null, nameOrig := .null, fullname := .null,
    myid := .str "routeM", mapApp := .null, archive := .null,
    goPrefixRouteName := .null, goShowSchedule := .null, outdated := .null,
    distance := .null, latitude := .null, longitude := .null,
    serviceTime := .null, serviceTimeShort := .null, systemId := none,
    system := none }

/-- A stop associated with `exampleGroupRoute` through `groupId` only. -/
def exampleGroupStop : Stop :=
  { id := .str "stopS", routesAndPositions := [("groupG", [0])],
    systemId := none, name := .null, latitude := .null, longitude := .null,
    radius := .null, system := none }

/-- C5: `Route.getStops` keeps exactly the stops whose `routesAndPositions`
keys contain the route's `myid`, `id`, or `groupId` (the spec's logical OR
over the three identifier spaces), and in particular a stop associated via
`groupId` alone — its keys matching neither `myid` nor `id` — is kept. -/
theorem route_getStops_or_across_ids :
    (∀ (route : Route) (allStops : List Stop),
        route.getStopsOn allStops =
          allStops.filter (specRouteServesStop route)) ∧
      Route.getStopsOn exampleGroupRoute [exampleGroupStop] =
        [exampleGroupStop] := by
  constructor
  · intro route allStops
    unfold Route.getStopsOn specRouteServesStop
    apply List.filter_congr
    intro s _
    rw [list_any_or_distrib (List.map Prod.fst s.routesAndPositions)
        (fun k => pyEq route.myid (Json.str k) || pyEq route.id (Json.str k))
        (fun k => pyEq route.groupId (Json.str k)),
      list_any_or_distrib (List.map Prod.fst s.routesAndPositions)
        (fun k => pyEq route.myid (Json.str k))
        (fun k => pyEq route.id (Json.str k))]
  · simp [Route.getStopsOn, exampleGroupRoute, exampleGroupStop, pyEq]

/-- A raw system record with every bool-coerced key present as a "0"/"1"
string except `logo`, which is absent (the claim's example). -/
def systemRecordMissingLogo : Json :=
  .obj [("id", .str "1"), ("fullname", .str "Example University"),
    ("username", .str "example"), ("goAgencyName", .null), ("email", .null),
    ("goTestMode", .str "0"), ("name2", .str "0"), ("homepage", .null),
    ("goRoutePlannerEnabled", .str "1"), ("goColor", .null),
    ("goSupportEmail", .null), ("goSharedCode", .null),
    ("goAuthenticationType", .str "0")]

/-- C2: a system record lacking the optional `logo` key does not yield
`logo = None` — the defaulting loop sets `system["logo"] = None` and the
subsequent `bool(int(None))` coercion raises a `TypeError`, so the whole
`getSystems` call raises instead of returning a system. -/
theorem getSystems_missing_logo_raises :
    parseSystemRecord systemRecordMissingLogo = .error .typeError ∧
      getSystems (some (.obj [("all", .arr [systemRecordMissingLogo])])) =
        .error .typeError :=
  ⟨rfl, rfl⟩

/-- Well-formedness of a raw vehicle entry: a non-empty array whose first
element is a dict (the record). -/
def vehicleEntryWF : Json → Bool
  | .arr (.obj _ :: _) => true
  | _ => false

theorem parseVehicleEntry_spec (sys : TransportationSystem)
    (kvs2 : List (String × Json)) (rest : List Json) :
    parseVehicleEntry sys (.arr (.obj kvs2 :: rest)) =
      .ok (specVehicleOfRecord sys kvs2) := by
  have key : ∀ k, k ∈ vehicleDefaultedKeys →
      (lookupJ (addMissingKeys kvs2 vehicleDefaultedKeys) k).getD .null =
        (lookupJ kvs2 k).getD .null := by
    intro k hk
    rw [addMissingKeys_lookup_mem _ _ hk]
    rfl
  simp only [parseVehicleEntry, pyIndex, List.get?, exceptBind_ok,
    vehicleRecordEnsured, exceptPure_eq_ok, specVehicleOfRecord]
  rw [key "busId" (by decide), key "busName" (by decide),
    key "busType" (by decide), key "calculatedCourse" (by decide),
    key "routeId" (by decide), key "route" (by decide),
    key "color" (by decide), key "created" (by decide),
    key "latitude" (by decide), key "longitude" (by decide),
    key "speed" (by decide), key "paxLoad100" (by decide),
    key "outOfService" (by decide), key "more" (by decide),
    key "tripId" (by decide)]

theorem vehicleLoop_spec (sys : TransportationSystem) :
    ∀ (items : List (String × Json)),
      (∀ p ∈ items, ¬p.1 = "-1" → vehicleEntryWF p.2 = true) →
      vehicleLoop sys items =
        .ok ((items.filter (fun p => !(p.1 == "-1"))).map
          (fun p => specVehicleOfRecord sys (vehicleHeadRecord p.2))) := by
  intro items
  induction items with
  | nil => intro _; rfl
  | cons p rest ih =>
    intro H
    obtain ⟨vid, v⟩ := p
    have ihr := ih (fun q hq => H q (List.mem_cons_of_mem _ hq))
    simp only [vehicleLoop]
    by_cases hvid : (vid == "-1") = true
    · rw [if_pos hvid, ihr]
      simp [List.filter_cons, hvid]
    · rw [if_neg hvid]
      have hwf := H (vid, v) (List.mem_cons_self _ _) (by simpa using hvid)
      cases v with
      | arr xs =>
        cases xs with
        | nil => simp [vehicleEntryWF] at hwf
        | cons x rest2 =>
          cases x with
          | obj kvs2 =>
            rw [parseVehicleEntry_spec, ihr]
            simp [List.filter_cons, hvid, vehicleHeadRecord]
          | null => simp [vehicleEntryWF] at hwf
          | bool b => simp [vehicleEntryWF] at hwf
          | num n => simp [vehicleEntryWF] at hwf
          | str s => simp [vehicleEntryWF] at hwf
          | arr ys => simp [vehicleEntryWF] at hwf
      | null => simp [vehicleEntryWF] at hwf
      | bool b => simp [vehicleEntryWF] at hwf
      | num n => simp [vehicleEntryWF] at hwf
      | str s => simp [vehicleEntryWF] at hwf
      | obj kvs2 => simp [vehicleEntryWF] at hwf

/-- C8: `getVehicles` skips exactly the `"-1"` sentinel entries, and every
remaining entry's first array element becomes a `Vehicle` built per the
spec's renames (`busId` to `id`, `busName` to `name`, `busType` to `type`,
`route` to `routeName`, `paxLoad100` to `paxLoad`) with missing enumerated
fields defaulted to null. -/
theorem getVehicles_excludes_sentinel (sys : TransportationSystem)
    (kvs : List (String × Json))
    (H : ∀ p ∈ kvs, ¬p.1 = "-1" → vehicleEntryWF p.2 = true) :
    getVehicles sys (some (.obj [("buses", .obj kvs)])) =
      .ok (some ((kvs.filter (fun p => !(p.1 == "-1"))).map
        (fun p => specVehicleOfRecord sys (vehicleHeadRecord p.2)))) := by
  have h := vehicleLoop_spec sys kvs H
  simp [getVehicles, pyGetItem, lookupJ, pyItems, h]

/-- C8 witness entries: a `"-1"` sentinel and one real vehicle. -/
def vehicleEntriesC8 : List (String × Json) :=
  [("-1", .arr [.obj [("busId", .str "ghost")]]),
   ("7", .arr [.obj [("busId", .str "B7"), ("route", .str "Blue")]])]

/-- Witness for C8 at concrete entries containing the sentinel. -/
theorem getVehicles_excludes_sentinel_witness :
    getVehicles exampleSystem (some (.obj [("buses", .obj vehicleEntriesC8)])) =
      .ok (some ((vehicleEntriesC8.filter (fun p => !(p.1 == "-1"))).map
        (fun p => specVehicleOfRecord exampleSystem (vehicleHeadRecord p.2)))) :=
  getVehicles_excludes_sentinel exampleSystem vehicleEntriesC8 (by
    intro p hp hne
    simp only [vehicleEntriesC8, List.mem_cons, List.mem_singleton] at hp
    rcases hp with rfl | rfl | h
    · exact absurd rfl hne
    · rfl
    · simp at h)

/-- C9: every `Route`, `Stop`, `Vehicle` and `SystemAlert` produced by the
listing functions for a given system carries a `system` back-reference equal
to that system, set at construction. -/
theorem listings_system_backreference :
    (∀ (sys : TransportationSystem) (resp : Option Json) (rs : List Route),
        getRoutes sys resp = .ok (some rs) → ∀ r ∈ rs, r.system = some sys) ∧
      (∀ (sys : TransportationSystem) (resp : Option Json) (ss : List Stop),
        getStops sys resp = .ok (some ss) → ∀ s ∈ ss, s.system = some sys) ∧
      (∀ (sys : TransportationSystem) (resp : Option Json) (vs : List Vehicle),
        getVehicles sys resp = .ok (some vs) → ∀ v ∈ vs, v.system = some sys) ∧
      (∀ (sys : TransportationSystem) (resp : Option Json)
          (as2 : List SystemAlert),
        getSystemAlerts sys resp = .ok (some as2) →
          ∀ a ∈ as2, a.system = some sys) := by
  refine ⟨?_, ?_, ?_, ?_⟩
  · intro sys resp rs h r hr
    cases resp with
    | none => simp [getRoutes] at h
    | some r0 =>
      unfold getRoutes at h
      obtain ⟨wrapped, _, h⟩ := exceptBind_ok_elim h
      cases wrapped <;>
        simp only [Bool.false_eq_true, if_true, if_false, exceptPure_eq_ok,
          exceptBind_ok] at h
      · obtain ⟨records, _, h⟩ := exceptBind_ok_elim h
        obtain ⟨out, h4, h⟩ := exceptBind_ok_elim h
        simp only [exceptPure_eq_ok, Except.ok.injEq, Option.some.injEq] at h
        subst h
        obtain ⟨v, _, hv⟩ := eachM_mem h4 r hr
        exact parseRouteRecord_system hv
      · obtain ⟨rv, _, h⟩ := exceptBind_ok_elim h
        obtain ⟨records, _, h⟩ := exceptBind_ok_elim h
        obtain ⟨out, h4, h⟩ := exceptBind_ok_elim h
        simp only [exceptPure_eq_ok, Except.ok.injEq, Option.some.injEq] at h
        subst h
        obtain ⟨v, _, hv⟩ := eachM_mem h4 r hr
        exact parseRouteRecord_system hv
  · intro sys resp ss h s hs
    cases resp with
    | none => simp [getStops] at h
    | some r0 =>
      unfold getStops at h
      obtain ⟨routesV0, _, h⟩ := exceptBind_ok_elim h
      obtain ⟨stopsV0, _, h⟩ := exceptBind_ok_elim h
      obtain ⟨routeItems, _, h⟩ := exceptBind_ok_elim h
      obtain ⟨ras, _, h⟩ := exceptBind_ok_elim h
      obtain ⟨stopItems, _, h⟩ := exceptBind_ok_elim h
      obtain ⟨out, h6, h⟩ := exceptBind_ok_elim h
      simp only [exceptPure_eq_ok, Except.ok.injEq, Option.some.injEq] at h
      subst h
      obtain ⟨v, _, hv⟩ := eachM_mem h6 s hs
      exact (parseStopRecord_fields hv).2
  · intro sys resp vs h v hv
    cases resp with
    | none => simp [getVehicles] at h
    | some r0 =>
      unfold getVehicles at h
      obtain ⟨buses, _, h⟩ := exceptBind_ok_elim h
      obtain ⟨items, _, h⟩ := exceptBind_ok_elim h
      obtain ⟨out, h3, h⟩ := exceptBind_ok_elim h
      simp only [exceptPure_eq_ok, Except.ok.injEq, Option.some.injEq] at h
      subst h
      obtain ⟨p, _, _, hp⟩ := vehicleLoop_mem h3 v hv
      exact parseVehicleEntry_system hp
  · intro sys resp as2 h a ha
    cases resp with
    | none => simp [getSystemAlerts] at h
    | some r0 =>
      unfold getSystemAlerts at h
      obtain ⟨msgs, _, h⟩ := exceptBind_ok_elim h
      obtain ⟨records, _, h⟩ := exceptBind_ok_elim h
      obtain ⟨out, h3, h⟩ := exceptBind_ok_elim h
      simp only [exceptPure_eq_ok, Except.ok.injEq, Option.some.injEq] at h
      subst h
      obtain ⟨v, _, hv⟩ := eachM_mem h3 a ha
      exact parseAlertRecord_system hv

/-- C9 witness route response. -/
def routesRespC9 : Json :=
  .obj [("all", .arr [.obj [("id", .str "1"), ("userId", .str "7")]])]

/-- The route listing produced from `routesRespC9`. -/
def routesListC9 : List Route :=
  match getRoutes exampleSystem (some routesRespC9) with
  | .ok (some l) => l
  | _ => []

/-- An all-null route used as a list default. -/
def defaultRoute : Route :=
  routeInit .null .null .null .null .null .null .null .null .null .null
    .null .null .null .null .null .null .null .null .null none none

/-- The single route of `routesListC9`. -/
def routeC9 : Route := routesListC9.headD defaultRoute

/-- C9 witness stop response. -/
def stopsRespC9 : Json :=
  .obj [("routes", .arr []),
    ("stops", .obj [("A", .obj [("id", .str "A"), ("name", .str "Stop A"),
      ("latitude", .null), ("longitude", .null)])])]

/-- The stop listing produced from `stopsRespC9`. -/
def stopsListC9 : List Stop :=
  match getStops exampleSystem (some stopsRespC9) with
  | .ok (some l) => l
  | _ => []

/-- An all-null stop used as a list default. -/
def defaultStop : Stop :=
  { id := .null, routesAndPositions := [], systemId := none,
    name := .null, latitude := .null, longitude := .null, radius := .null,
    system := none }

/-- The single stop of `stopsListC9`. -/
def stopC9 : Stop := stopsListC9.headD defaultStop

/-- C9 witness vehicle response. -/
def vehiclesRespC9 : Json := .obj [("buses", .obj [("7", .arr [.obj []])])]

/-- The vehicle listing produced from `vehiclesRespC9`. -/
def vehiclesListC9 : List Vehicle :=
  match getVehicles exampleSystem (some vehiclesRespC9) with
  | .ok (some l) => l
  | _ => []

/-- An all-null vehicle used as a list default. -/
def defaultVehicle : Vehicle :=
  { id := .null, name := .null, type := .null,
    system := none, calculatedCourse := .null, routeId := .null,
    routeName := .null, color := .null, created := .null, latitude := .null,
    longitude := .null, speed := .null, paxLoad := .null,
    outOfService := .null, more := .null, tripId := .null }

/-- The single vehicle of `vehiclesListC9`. -/
def vehicleC9 : Vehicle := vehiclesListC9.headD defaultVehicle

/-- C9 witness alert response. -/
def alertsRespC9 : Json :=
  .obj [("msgs", .arr [.obj [("id", .num 1), ("userId", .null),
    ("routeId", .null), ("name", .null), ("html", .null), ("archive", .null),
    ("important", .null), ("created", .null), ("from", .null), ("to", .null),
    ("asPush", .null), ("gtfs", .null), ("gtfsAlertCauseId", .null),
    ("gtfsAlertEffectId", .null), ("gtfsAlertUrl", .null),
    ("gtfsAlertHeaderText", .null), ("gtfsAlertDescriptionText", .null),
    ("routeGroupId", .null), ("createdUtc", .null), ("authorId", .null),
    ("author", .null), ("updated", .null), ("updateAuthorId", .null),
    ("updateAuthor", .null), ("createdF", .null), ("fromF", .null),
    ("fromOk", .null), ("toOk", .null)]])]

/-- The alert listing produced from `alertsRespC9`. -/
def alertsListC9 : List SystemAlert :=
  match getSystemAlerts exampleSystem (some alertsRespC9) with
  | .ok (some l) => l
  | _ => []

/-- An all-null alert used as a list default. -/
def defaultAlert : SystemAlert :=
  { id := .null, systemId := .null, system := none,
    routeId := .null, name := .null, html := .null, archive := .null,
    important := .null, dateTimeCreated := .null, dateTimeFrom := .null,
    dateTimeTo := .null, asPush := .null, gtfs := .null,
    gtfsAlertCauseId := .null, gtfsAlertEffectId := .null,
    gtfsAlertUrl := .null, gtfsAlertHeaderText := .null,
    gtfsAlertDescriptionText := .null, routeGroupId := .null,
    createdUtc := .null, authorId := .null, author := .null, updated := .null,
    updateAuthorId := .null, updateAuthor := .null, createdF := .null,
    fromF := .null, fromOk := .null, toOk := .null }

/-- The single alert of `alertsListC9`. -/
def alertC9 : SystemAlert := alertsListC9.headD defaultAlert

/-- Witness for C9: the back-reference invariant applied to one concrete
element of each listing. -/
theorem listings_system_backreference_witness :
    routeC9.system = some exampleSystem ∧
      stopC9.system = some exampleSystem ∧
      vehicleC9.system = some exampleSystem ∧
      alertC9.system = some exampleSystem := by
  obtain ⟨hr, hs, hv, ha⟩ := listings_system_backreference
  refine ⟨?_, ?_, ?_, ?_⟩
  · exact hr exampleSystem (some routesRespC9) routesListC9 rfl routeC9
      (show routeC9 ∈ routesListC9 from List.mem_singleton.mpr rfl)
  · exact hs exampleSystem (some stopsRespC9) stopsListC9 rfl stopC9
      (show stopC9 ∈ stopsListC9 from List.mem_singleton.mpr rfl)
  · exact hv exampleSystem (some vehiclesRespC9) vehiclesListC9 rfl vehicleC9
      (show vehicleC9 ∈ vehiclesListC9 from List.mem_singleton.mpr rfl)
  · exact ha exampleSystem (some alertsRespC9) alertsListC9 rfl alertC9
      (show alertC9 ∈ alertsListC9 from List.mem_singleton.mpr rfl)

/-- C7 (amended): an empty `routes` or `stops` collection is treated as an
empty mapping and raises no error; an empty `stops` collection yields the
empty list, while an empty `routes` collection passes every stop through
with an empty `routesAndPositions`. -/
theorem getStops_empty_collections :
    ∀ (sys : TransportationSystem) (stopKvs : List (String × Json))
      (out : List Stop),
      eachM (fun p => parseStopRecord sys [] p.2) stopKvs = .ok out →
      (getStops sys
          (some (.obj [("routes", .arr []), ("stops", .obj stopKvs)])) =
            .ok (some out) ∧
        out.length = stopKvs.length ∧
        ∀ s ∈ out, s.routesAndPositions = []) ∧
      getStops sys (some (.obj [("routes", .arr []), ("stops", .arr [])])) =
        .ok (some []) ∧
      getStops sys (some (.obj [("routes", .obj []), ("stops", .arr [])])) =
        .ok (some []) := by
  intro sys stopKvs out h
  refine ⟨⟨?_, eachM_length h, ?_⟩, rfl, rfl⟩
  · have e : getStops sys
        (some (.obj [("routes", .arr []), ("stops", .obj stopKvs)])) =
        (eachM (fun p => parseStopRecord sys [] p.2) stopKvs >>=
          fun o => pure (some o)) := rfl
    rw [e, h]
    rfl
  · intro s hs
    obtain ⟨p, _, hp⟩ := eachM_mem h s hs
    exact (parseStopRecord_fields hp).1

/-- C7 witness stop record. -/
def stopRecC7 : Json :=
  .obj [("id", .str "s1"), ("name", .null), ("latitude", .null),
    ("longitude", .null)]

/-- The stop produced from `stopRecC7` with no routes table. -/
def stopOutC7 : Stop :=
  { id := .str "s1", routesAndPositions := [], systemId := none,
    name := .null, latitude := .null, longitude := .null, radius := .null,
    system := some exampleSystem }

/-- Witness for C7 at one concrete stop record with empty routes. -/
theorem getStops_empty_collections_witness :
    getStops exampleSystem
        (some (.obj [("routes", .arr []),
          ("stops", .obj [("s1", stopRecC7)])])) =
      .ok (some [stopOutC7]) ∧
      getStops exampleSystem
          (some (.obj [("routes", .arr []), ("stops", .arr [])])) =
        .ok (some []) :=
  ⟨((getStops_empty_collections exampleSystem [("s1", stopRecC7)] [stopOutC7]
      (by rfl)).1).1,
    ((getStops_empty_collections exampleSystem [] [] (by rfl)).2).1⟩

/-- C7 counterexample: with `routes: []` and one stop record, `getStops`
returns that one stop — not an empty result as the claim states. -/
theorem getStops_empty_routes_counterexample :
    getStops exampleSystem
        (some (.obj [("routes", .arr []),
          ("stops", .obj [("s1", stopRecC7)])])) =
      .ok (some [stopOutC7]) ∧
      (Except.ok (some [stopOutC7]) :
          Except PyErr (Option (List Stop))) ≠ .ok (some []) :=
  ⟨rfl, fun h => List.noConfusion (Option.some.inj (Except.ok.inj h))⟩

/-- C1 (amended): for every stop-listing response processed by `getStops`,
each position recorded in a stop's `routesAndPositions` for a route is an
index at which the route's placeholder-filtered stop-id list carries a value
Python-equal to the stop's id, and the recorded list contains exactly those
indices; and — provided every id in a route's filtered list equals (as a
Python value, in both comparison directions) the id of some stop of the
response — reconstructing the route's stop-id list from all stops'
`routesAndPositions` reproduces the original list up to Python equality. -/
theorem getStops_positions_roundtrip :
    ∀ (sys : TransportationSystem) (routeItems : List (String × Json))
      (stopKvs : List (String × Json)) (ras : List (String × List Json))
      (stops : List Stop),
      buildRoutesAndStops routeItems = .ok ras →
      getStops sys
          (some (.obj [("routes", .obj routeItems),
            ("stops", .obj stopKvs)])) = .ok (some stops) →
      (∀ s ∈ stops, ∀ rid ps, (rid, ps) ∈ s.routesAndPositions →
        ∃ sids, (rid, sids) ∈ ras ∧
          ∀ p, p ∈ ps ↔
            ∃ h : p < sids.length, pyEq (sids.get ⟨p, h⟩) s.id = true) ∧
      ((ras.map Prod.fst).Nodup →
        ∀ rid sids, (rid, sids) ∈ ras →
        (∀ x ∈ sids, ∃ s ∈ stops, pyEq x s.id = true ∧ pyEq s.id x = true) →
        (reconstructRouteStopIds stops rid sids.length).length =
            sids.length ∧
          ∀ i (hi : i < sids.length), ∃ s ∈ stops,
            (reconstructRouteStopIds stops rid sids.length).get? i =
              some (some s.id) ∧
            pyEq (sids.get ⟨i, hi⟩) s.id = true) := by
  intro sys routeItems stopKvs ras stops hras hget
  have e : getStops sys
      (some (.obj [("routes", .obj routeItems), ("stops", .obj stopKvs)])) =
      (buildRoutesAndStops routeItems >>= fun ras2 =>
        (eachM (fun p => parseStopRecord sys ras2 p.2) stopKvs >>=
          fun out => pure (some out))) := rfl
  rw [e, hras, exceptBind_ok] at hget
  obtain ⟨out, hout, hpure⟩ := exceptBind_ok_elim hget
  simp only [exceptPure_eq_ok, Except.ok.injEq, Option.some.injEq] at hpure
  subst hpure
  have hbridge : ∀ s ∈ out, s.routesAndPositions = stopRAP ras s.id := by
    intro s hs
    obtain ⟨p, _, hp⟩ := eachM_mem hout s hs
    exact (parseStopRecord_fields hp).1
  constructor
  · intro s hs rid ps hmem
    rw [hbridge s hs] at hmem
    obtain ⟨sids, hsids, _, rfl⟩ := mem_stopRAP.mp hmem
    exact ⟨sids, hsids, fun p => mem_positionsOf⟩
  · intro hnd rid sids hmem hcov
    constructor
    · simp [reconstructRouteStopIds]
    · intro i hi
      obtain ⟨s0, hs0, hxs0, hs0x⟩ :=
        hcov (sids.get ⟨i, hi⟩) (List.get_mem _ _ _)
      have hfind0 : s0.routesAndPositions.find? (fun q => q.1 == rid) =
          some (rid, positionsOf sids s0.id) := by
        rw [hbridge s0 hs0, stopRAP_find_of_nodup hmem hnd,
          if_pos (List.any_eq_true.mpr
            ⟨sids.get ⟨i, hi⟩, List.get_mem _ _ _, hs0x⟩)]
      have hpred0 : recordsPosition rid i s0 = true := by
        unfold recordsPosition
        rw [hfind0]
        have hpos : i ∈ positionsOf sids s0.id :=
          mem_positionsOf.mpr ⟨hi, hxs0⟩
        simpa using hpos
      have hissome : (out.find? (recordsPosition rid i)).isSome :=
        List.find?_isSome.mpr ⟨s0, hs0, hpred0⟩
      obtain ⟨s1, hfind⟩ := Option.isSome_iff_exists.mp hissome
      have hs1mem : s1 ∈ out := List.mem_of_find?_eq_some hfind
      have hp1 : recordsPosition rid i s1 = true := List.find?_some hfind
      unfold recordsPosition at hp1
      rw [hbridge s1 hs1mem, stopRAP_find_of_nodup hmem hnd] at hp1
      by_cases hany1 : (sids.any fun e => pyEq s1.id e) = true
      · rw [if_pos hany1] at hp1
        have hpos1 : i ∈ positionsOf sids s1.id := by simpa using hp1
        obtain ⟨h2, hpy⟩ := mem_positionsOf.mp hpos1
        refine ⟨s1, hs1mem, ?_, hpy⟩
        simp only [reconstructRouteStopIds, List.get?_map,
          List.get?_range hi, Option.map_some', hfind]
      · rw [if_neg hany1] at hp1
        simp at hp1

/-- C1 witness routes: one route visiting stop `"A"` twice (a loop). -/
def routeItemsC1 : List (String × Json) :=
  [("r", .arr [.null, .null, .arr [.num 0, .str "A"], .num 0,
    .arr [.num 1, .str "A"]])]

/-- C1 witness stops: the single stop `"A"`. -/
def stopKvsC1 : List (String × Json) :=
  [("A", .obj [("id", .str "A"), ("name", .null), ("latitude", .null),
    ("longitude", .null)])]

/-- The routes-and-stops table built from `routeItemsC1`. -/
def rasC1 : List (String × List Json) := [("r", [.str "A", .str "A"])]

/-- The stop listing produced from the C1 witness response. -/
def stopsOutC1 : List Stop :=
  [{ id := .str "A", routesAndPositions := [("r", [0, 1])], systemId := none,
     name := .null, latitude := .null, longitude := .null, radius := .null,
     system := some exampleSystem }]

/-- Witness for C1 at the concrete loop response: reconstruction covers both
positions of the route. -/
theorem getStops_positions_roundtrip_witness :
    (reconstructRouteStopIds stopsOutC1 "r" 2).length = 2 := by
  have h := getStops_positions_roundtrip exampleSystem routeItemsC1
    stopKvsC1 rasC1 stopsOutC1 rfl rfl
  have h2 := h.2 (by simp [rasC1]) "r" [Json.str "A", Json.str "A"]
    (List.mem_singleton.mpr rfl)
    (by
      intro x hx
      refine ⟨stopsOutC1.headD defaultStop, List.mem_singleton.mpr rfl, ?_⟩
      simp only [List.mem_cons, List.not_mem_nil, or_false, or_self] at hx
      subst hx
      exact ⟨rfl, rfl⟩)
  exact h2.1

/-- C1 counterexample routes: one route referencing stop id `"X"`. -/
def routeItemsC1bad : List (String × Json) :=
  [("r", .arr [.null, .null, .arr [.num 0, .str "X"]])]

/-- C1 counterexample: a route referencing a stop id absent from the `stops`
mapping — the filtered list is `["X"]` but no stop records any position, so
the reconstruction yields `[none]` and cannot reproduce the original list. -/
theorem getStops_roundtrip_counterexample :
    buildRoutesAndStops routeItemsC1bad = .ok [("r", [.str "X"])] ∧
      getStops exampleSystem
          (some (.obj [("routes", .obj routeItemsC1bad),
            ("stops", .obj [])])) = .ok (some []) ∧
      reconstructRouteStopIds [] "r" 1 = [none] ∧
      ([none] : List (Option Json)) ≠ [some (.str "X")] := by
  refine ⟨rfl, rfl, rfl, fun h => ?_⟩
  exact Option.noConfusion (List.cons.inj h).1
